import Mathlib

/-!
Shallow embedding of the ClickUp task-draft builder
(`src/clickup_api_lib/clickup_file.py`, class `Clickup`).

The Python object holds a mutable draft `body` (a dict from field name to
value), a task id, a list id, an accumulated custom-field sequence, and
lazily created caches (`validStatuses`, `valid_CustomFields_ids`,
`space_id`, `tags`).  Every method that talks to the network is embedded as
a function that additionally receives the network's answer as an explicit
argument and reports, next to its result, the state after the call and the
number of HTTP requests it issued.

Python raises `ValueError` for all domain failures and `TypeError` /
`KeyError` for the two genuine slips in the source; the error type below
has one constructor per raise site so that the spec's taxonomy
(StateError / ValidationError / RemoteError) can be expressed as
predicates over raise sites.
-/

set_option linter.unusedVariables false

namespace ClickupLib

/-- Python values that the library ever stores in the draft body.
`nanFloat` stands for a float NaN (the one float `is_not_empty` treats as
empty); `watchers a r` is the dict `{"add": a, "rem": r}` written by
`add_watcher` / `remove_watcher`; `fields l` is the accumulated
`custom_fields` list of `{"id": ·, "value": ·}` pairs. -/
inductive Value where
  | str (s : String)
  | int (n : Int)
  | bool (b : Bool)
  | intList (l : List Int)
  | strList (l : List String)
  | watchers (add rem : List Int)
  | fields (l : List (String × String))
  | none
  | nanFloat
deriving DecidableEq

/-- `is_not_empty` from the source: `None`, NaN, whitespace-only strings and
empty collections are "empty"; everything else is non-empty.  The string
case embeds `not value.strip()`, which is true exactly when every
character of the string is whitespace. -/
def is_not_empty : Value → Bool
  | .none => false
  | .nanFloat => false
  | .str s => !(s.data.all Char.isWhitespace)
  | .intList l => !l.isEmpty
  | .strList l => !l.isEmpty
  | .fields l => !l.isEmpty
  | .watchers _ _ => true
  | .int _ => true
  | .bool _ => true

/-- Python-dict update `m[k] = v`: overwrite in place when the key exists
(keeping its position), append at the end otherwise. -/
def dictSet {α β : Type} [BEq α] (m : List (α × β)) (k : α) (v : β) : List (α × β) :=
  match m with
  | [] => [(k, v)]
  | (q, w) :: t => if q == k then (q, v) :: t else (q, w) :: dictSet t k v

/-- Python-dict lookup `m[k]` / `m.get(k)` as an `Option`. -/
def dictGet {α β : Type} [BEq α] (k : α) : List (α × β) → Option β
  | [] => Option.none
  | (q, w) :: t => if q == k then some w else dictGet k t

/-- The draft body: a Python dict from field name to value. -/
abbrev Body := List (String × Value)

/-- One raise site of the source per constructor.  The comments give the
Python exception class and message. -/
inductive Err where
  /-- ValueError "None list id provided." (`add_task`) -/
  | noListId
  /-- ValueError "Task already created." (`add_task`) -/
  | alreadyCreated
  /-- ValueError "Task creation failed: 'name' is missing or empty in the task body." -/
  | nameMissing
  /-- ValueError "Task creation failed: {status_code} {text}" -/
  | createFailedStatus (code : Nat)
  /-- ValueError "Task creation failed: 'id' not found in response." -/
  | idNotFound
  /-- ValueError "Unexcpeted error occurred while adding task: {e}" -/
  | createTransport
  /-- ValueError "No task ID provided." (`update_task`) -/
  | noTaskId
  /-- ValueError "Task update failed: {status_code} {text}" -/
  | updateFailedStatus (code : Nat)
  /-- ValueError "Unexcpeted error occurred while updateing task: {e}" -/
  | updateTransport
  /-- ValueError "Invalid task ID: {task_id}" (`add_parent` / `add_linksTo`) -/
  | invalidTaskRef (tid : String)
  /-- ValueError "No task to check. No ID given." (`check_task_validity`) -/
  | checkNoId
  /-- ValueError "Unexpected error occurred: {e}" (`check_task_validity`) -/
  | checkTransport
  /-- ValueError "Name could not be converted to a string" (`add_name`) -/
  | nameNotConvertible
  /-- TypeError: comparing a `datetime.timedelta` with the int `1`
  (`add_startDate`, the expression `(current_time - start_date) > 1`) -/
  | timedeltaIntCompare
  /-- TypeError: `next` applied to a list, which is not an iterator
  (`get_customFieldId`, the expression `next([...], None)`) -/
  | nextOnList
  /-- TypeError: subscripting a non-dict stored under `body["watchers"]` -/
  | subscriptTypeError
  /-- ValueError "Failed to fetch custom fields: {e}" (`get_customFields`) -/
  | fetchFieldsFailed
  /-- ValueError "No list ID provided." (`get_statuses`) -/
  | noListIdStatuses
  /-- ValueError "Failed to fetch statuses: {status_code} {text}" -/
  | fetchStatusesFailed (code : Nat)
  /-- ValueError "Failed to fetch statuses: {e}" (transport) -/
  | fetchStatusesTransport
  /-- ValueError "Failed to parse statuses from response: {e}." (caught KeyError) -/
  | statusesParse
  /-- ValueError "Status {status} is not a string" (`get_statuses`) -/
  | statusNotString
  /-- ValueError "Could not obtain statuses. No list ID provided."
  (`add_status` / `get_first_status` after a fetch that left the cache unset) -/
  | couldNotObtainStatuses
  /-- ValueError "No statuses found in the list." (`get_first_status`) -/
  | noStatusesFound
  /-- KeyError 0: `statuses[0]` on a dict without key `0` (`get_first_status`) -/
  | statusKeyError
deriving DecidableEq

/-- Raise sites that are Python `TypeError`s. -/
def Err.isTypeError : Err → Bool
  | .timedeltaIntCompare => true
  | .nextOnList => true
  | .subscriptTypeError => true
  | _ => false

/-- Raise sites that are Python `KeyError`s. -/
def Err.isKeyError : Err → Bool
  | .statusKeyError => true
  | _ => false

/-- Raise sites that are Python `ValueError`s (everything the source raises
explicitly; only the two slips raise `TypeError`, and the dict lookup in
`get_first_status` can raise `KeyError`). -/
def Err.isValueError : Err → Bool
  | e => !e.isTypeError && !e.isKeyError

/-- The spec's `StateError` class: an operation invoked in the wrong
lifecycle state (no list bound, already created, name missing, update
before create). -/
def Err.isStateError : Err → Bool
  | .noListId => true
  | .alreadyCreated => true
  | .nameMissing => true
  | .noTaskId => true
  | _ => false

/-- The spec's `ValidationError` class: an input failing a local or
cached-reference check. -/
def Err.isValidationError : Err → Bool
  | .invalidTaskRef _ => true
  | .nameNotConvertible => true
  | .couldNotObtainStatuses => true
  | .noStatusesFound => true
  | _ => false

/-- The state of one `Clickup` instance.  Attributes that Python creates
lazily (`validStatuses`, `space_id`, `tags`) are `none` while the attribute
does not exist. -/
structure Clickup where
  body : Body
  id : Option String
  list_id : Option String
  customFields : List (String × String)
  valid_CustomFields_ids : Option (List String)
  validStatuses : Option (List (Int × String))
  space_id : Option String
  tags : Option (List String)
deriving DecidableEq

/-- Result of a method call: the state after the call, the returned value
or the exception raised, and the number of HTTP requests issued. -/
structure MRes (α : Type) where
  state : Clickup
  ret : Except Err α
  calls : Nat

/-- A Python argument value, as far as the embedded methods inspect it:
a `str`, an `int`, `None`, or an object whose `str()` raises. -/
inductive PyVal where
  | str (s : String)
  | int (n : Int)
  | none
  | unstringable
deriving DecidableEq

def PyVal.isStr : PyVal → Bool
  | .str _ => true
  | _ => false

def PyVal.isInt : PyVal → Bool
  | .int _ => true
  | _ => false

/-- Python `str(x)`: `none` when `__str__` raises. -/
def pyStr : PyVal → Option String
  | .str s => some s
  | .int n => some (toString n)
  | .none => some "None"
  | .unstringable => Option.none

/-- `add_name`: a `str` argument is written to `body["name"]`; any other
argument is converted with `str()` (raising `ValueError` when that fails)
but the conversion result is never written into the body. -/
def add_name (st : Clickup) (name : PyVal) : Except Err Clickup :=
  match name with
  | .str s => .ok { st with body := dictSet st.body "name" (.str s) }
  | v =>
    match pyStr v with
    | some _ => .ok st
    | Option.none => .error .nameNotConvertible

/-- `Clickup.__init__(api_token, name=None, list_id=None)`: starts with an
empty body, runs `add_name(name)`, and leaves every cache unset. -/
def Clickup.init (name : PyVal) (list_id : Option String) : Except Err Clickup :=
  add_name
    { body := [], id := Option.none, list_id := list_id, customFields := [],
      valid_CustomFields_ids := Option.none, validStatuses := Option.none,
      space_id := Option.none, tags := Option.none }
    name

/-- The network's answer to the create POST: a response with a status code
and the value of the `id` field of its JSON body (`none` when absent), or a
`requests.exceptions.RequestException`. -/
inductive CreateNet where
  | resp (status : Nat) (idField : Option String)
  | requestFail
deriving DecidableEq

/-- The network's answer to the update PUT: a response with a status code
and its JSON body (kept opaque), or a transport failure. -/
inductive UpdateNet where
  | resp (status : Nat) (json : String)
  | requestFail
deriving DecidableEq

/-- The network's answer to the existence probe GET of
`check_task_validity`. -/
inductive ProbeNet where
  | resp (status : Nat)
  | requestFail
deriving DecidableEq

/-- `add_task(list_id=None)`.  The source first rebinds `self.list_id`
whenever an argument is given, then checks list id, task id and name, and
only then performs the POST.  On a 200 response `self.id` is assigned the
response's `id` field before the falsiness check `if not self.id`, so an
empty-string id is kept in `self.id` while the call still raises. -/
def add_task (st0 : Clickup) (list_id : Option String) (net : CreateNet) : MRes Unit :=
  let st := { st0 with list_id := list_id.or st0.list_id }
  if st.list_id.isNone then ⟨st, .error .noListId, 0⟩
  else if st.id.isSome then ⟨st, .error .alreadyCreated, 0⟩
  else if !(match dictGet "name" st.body with
            | some v => is_not_empty v
            | Option.none => false) then ⟨st, .error .nameMissing, 0⟩
  else
    match net with
    | .requestFail => ⟨st, .error .createTransport, 1⟩
    | .resp status idField =>
      if status == 200 then
        let st2 := { st with id := idField }
        if idField == Option.none || idField == some "" then
          ⟨st2, .error .idNotFound, 1⟩
        else ⟨st2, .ok (), 1⟩
      else ⟨st, .error (.createFailedStatus status), 1⟩

/-- `update_task()`: fails before the network when `self.id is None`;
otherwise one PUT, returning the response JSON on 200.  No local state is
ever written. -/
def update_task (st : Clickup) (net : UpdateNet) : MRes String :=
  if st.id.isNone then ⟨st, .error .noTaskId, 0⟩
  else
    match net with
    | .requestFail => ⟨st, .error .updateTransport, 1⟩
    | .resp status json =>
      if status == 200 then ⟨st, .ok json, 1⟩
      else ⟨st, .error (.updateFailedStatus status), 1⟩

/-- `check_task_validity(task_id=None)`: with no argument and no stored id
it raises before the network; otherwise one GET whose 200-ness is the
boolean answer, with transport failures re-raised as `ValueError`. -/
def check_task_validity (st : Clickup) (task_id : Option PyVal) (net : ProbeNet) :
    Except Err Bool :=
  if task_id.isNone && st.id.isNone then .error .checkNoId
  else
    match net with
    | .requestFail => .error .checkTransport
    | .resp status => .ok (status == 200)

/-- `add_parent(task_id)`: only a `str` argument is processed (anything
else falls through the `isinstance` guard and the method returns with no
write, no check and no error); a processed argument is probed via
`check_task_validity` and written to `body["parent"]` exactly when the
probe answers true. -/
def add_parent (st : Clickup) (net : ProbeNet) (task_id : PyVal) : MRes Unit :=
  match task_id with
  | .str s =>
    match check_task_validity st (some (.str s)) net with
    | .error e => ⟨st, .error e, 1⟩
    | .ok true => ⟨{ st with body := dictSet st.body "parent" (.str s) }, .ok (), 1⟩
    | .ok false => ⟨st, .error (.invalidTaskRef s), 1⟩
  | _ => ⟨st, .ok (), 0⟩

/-- `add_linksTo(task_id)`: the mirror image of `add_parent` with an
`isinstance(task_id, int)` guard and the `body["links_to"]` key. -/
def add_linksTo (st : Clickup) (net : ProbeNet) (task_id : PyVal) : MRes Unit :=
  match task_id with
  | .int n =>
    match check_task_validity st (some (.int n)) net with
    | .error e => ⟨st, .error e, 1⟩
    | .ok true => ⟨{ st with body := dictSet st.body "links_to" (.int n) }, .ok (), 1⟩
    | .ok false => ⟨st, .error (.invalidTaskRef (toString n)), 1⟩
  | _ => ⟨st, .ok (), 0⟩

/-- `add_startDate(time, specify_time=False)`.  Instants are in
milliseconds since the epoch; `datetime.fromtimestamp(time/1000) <
datetime.now()` is embedded as `time < now`.  When the date is strictly in
the past, the second conjunct `(current_time - start_date) > 1` compares a
`datetime.timedelta` with the int `1` and raises `TypeError`; only a
non-past date reaches the two body writes. -/
def add_startDate (st : Clickup) (now time : Int) (specify_time : Bool) :
    Except Err Clickup :=
  if time < now then .error .timedeltaIntCompare
  else
    .ok { st with
      body := dictSet (dictSet st.body "start_date" (.int time))
                "start_date_time" (.bool specify_time) }

/-- `add_watcher(user_id)`: creates `body["watchers"] = {"add": [], "rem": []}`
when the key is absent, then appends `user_id` to the `add` list unless
already a member.  A non-dict value stored under the key would make the
subscript raise `TypeError`. -/
def add_watcher (st0 : Clickup) (user_id : Int) : Except Err Clickup :=
  let st := if (dictGet "watchers" st0.body).isNone then
      { st0 with body := dictSet st0.body "watchers" (.watchers [] []) }
    else st0
  match dictGet "watchers" st.body with
  | some (.watchers a r) =>
    if user_id ∈ a then .ok st
    else .ok { st with body := dictSet st.body "watchers" (.watchers (a ++ [user_id]) r) }
  | _ => .error .subscriptTypeError

/-- `remove_watcher(user_id)`: same as `add_watcher` on the `rem` list. -/
def remove_watcher (st0 : Clickup) (user_id : Int) : Except Err Clickup :=
  let st := if (dictGet "watchers" st0.body).isNone then
      { st0 with body := dictSet st0.body "watchers" (.watchers [] []) }
    else st0
  match dictGet "watchers" st.body with
  | some (.watchers a r) =>
    if user_id ∈ r then .ok st
    else .ok { st with body := dictSet st.body "watchers" (.watchers a (r ++ [user_id])) }
  | _ => .error .subscriptTypeError

/-- `clear_task()`: resets `body` and `customFields`, nothing else. -/
def clear_task (st : Clickup) : Clickup :=
  { st with body := [], customFields := [] }

/-- One custom-field definition of the list, as returned inside the
`fields` array of the field-listing endpoint. -/
structure FieldDef where
  id : String
  name : String
deriving DecidableEq

/-- The network's answer to the field-listing GET of `get_customFields`:
a response with a status code and the `fields` array of its JSON body, or
a transport failure. -/
inductive FieldsNet where
  | resp (status : Nat) (fields : List FieldDef)
  | requestFail
deriving DecidableEq

/-- `get_customFields()`: one GET; `raise_for_status()` turns any 4xx/5xx
status into a caught `RequestException`, re-raised as `ValueError`; on
success the JSON body (its `fields` array here) is returned.  No state is
written. -/
def get_customFields (st : Clickup) (net : FieldsNet) : MRes (List FieldDef) :=
  match net with
  | .requestFail => ⟨st, .error .fetchFieldsFailed, 1⟩
  | .resp status fields =>
    if 400 ≤ status then ⟨st, .error .fetchFieldsFailed, 1⟩
    else ⟨st, .ok fields, 1⟩

/-- `get_customFieldId(name)`: fetches the definitions, builds the list
comprehension `[field["id"] for field in fields if field["name"] == name]`,
and passes that list to `next(·, None)`.  A list is not an iterator, so
`next` raises `TypeError` before any element is inspected; the assignment
to `self.CustomField_id` is never reached. -/
def get_customFieldId (st : Clickup) (net : FieldsNet) (name : String) :
    MRes (Option String) :=
  match get_customFields st net with
  | ⟨st1, .error e, c⟩ => ⟨st1, .error e, c⟩
  | ⟨st1, .ok fields, c⟩ =>
    let comprehension := (fields.filter (fun f => f.name == name)).map (fun f => f.id)
    ⟨st1, .error .nextOnList, c⟩

/-- One entry of the `statuses` array of the list endpoint: the value of
its `status` field (an arbitrary JSON value) and its `orderindex`. -/
structure StatusEntry where
  orderindex : Int
  status : Value
deriving DecidableEq

/-- The network's answer to the list GET of `get_statuses`: a status code
and the `statuses` array of the JSON body (`none` when the key is absent,
which the source turns into a caught `KeyError`), or a transport
failure. -/
inductive StatusesNet where
  | resp (status : Nat) (statuses : Option (List StatusEntry))
  | requestFail
deriving DecidableEq

/-- The loop of `get_statuses`: grows a local dict keyed by `orderindex`
and assigns it to `self.validStatuses` once per iteration, so a mid-loop
`ValueError` (non-string status) leaves the cache holding the entries seen
so far, and an empty array leaves the cache untouched. -/
def statusesLoop (st : Clickup) (acc : List (Int × String)) :
    List StatusEntry → Clickup × Option Err
  | [] => (st, Option.none)
  | e :: rest =>
    match e.status with
    | .str s =>
      let acc2 := dictSet acc e.orderindex s
      statusesLoop { st with validStatuses := some acc2 } acc2 rest
    | _ => (st, some .statusNotString)

/-- `get_statuses()`: fails before the network when no list id is bound;
otherwise one GET, a `ValueError` for non-200 or transport failure, a
caught `KeyError` (re-raised as `ValueError`) when the body has no
`statuses` key, and otherwise the cache-building loop. -/
def get_statuses (st : Clickup) (net : StatusesNet) : MRes Unit :=
  if st.list_id.isNone then ⟨st, .error .noListIdStatuses, 0⟩
  else
    match net with
    | .requestFail => ⟨st, .error .fetchStatusesTransport, 1⟩
    | .resp status payload =>
      if status != 200 then ⟨st, .error (.fetchStatusesFailed status), 1⟩
      else
        match payload with
        | Option.none => ⟨st, .error .statusesParse, 1⟩
        | some entries =>
          match statusesLoop st [] entries with
          | (st1, Option.none) => ⟨st1, .ok (), 1⟩
          | (st1, some e) => ⟨st1, .error e, 1⟩

/-- Truthiness of `self.validStatuses` combined with `hasattr`: the
attribute exists and is a non-empty dict. -/
def statusesTruthy : Option (List (Int × String)) → Bool
  | some vs => !vs.isEmpty
  | Option.none => false

/-- The tail of `get_first_status` once a (truthy) `statuses` dict is in
hand: `statuses[0]` is a dict lookup with key `0`, raising `KeyError` when
no entry has order-index `0`; the `else` branch is unreachable because the
dict was checked truthy. -/
def firstFromStatuses (st : Clickup) (vs : List (Int × String)) (calls : Nat) :
    MRes String :=
  if !vs.isEmpty then
    match dictGet (0 : Int) vs with
    | some s => ⟨st, .ok s, calls⟩
    | Option.none => ⟨st, .error .statusKeyError, calls⟩
  else ⟨st, .error .noStatusesFound, calls⟩

/-- The fetch branch of `get_first_status()`: runs `get_statuses()` (whose
exceptions propagate), raises `ValueError` when the cache is still not
truthy afterwards, and otherwise hands the cache to the key-`0` lookup. -/
def get_first_status_fetch (st : Clickup) (net : StatusesNet) : MRes String :=
  match get_statuses st net with
  | ⟨st1, .error e, c⟩ => ⟨st1, .error e, c⟩
  | ⟨st1, .ok _, c⟩ =>
    match st1.validStatuses with
    | some vs =>
      if !vs.isEmpty then firstFromStatuses st1 vs c
      else ⟨st1, .error .couldNotObtainStatuses, c⟩
    | Option.none => ⟨st1, .error .couldNotObtainStatuses, c⟩

/-- `get_first_status()`: serves from the cache when truthy; otherwise
takes the fetch branch. -/
def get_first_status (st : Clickup) (net : StatusesNet) : MRes String :=
  match st.validStatuses with
  | some vs =>
    if !vs.isEmpty then firstFromStatuses st vs 0
    else get_first_status_fetch st net
  | Option.none => get_first_status_fetch st net

/-! ### Dictionary lemmas -/

theorem dictGet_dictSet_self {α β : Type} [BEq α] [LawfulBEq α]
    (m : List (α × β)) (k : α) (v : β) :
    dictGet k (dictSet m k v) = some v := by
  induction m with
  | nil => simp [dictSet, dictGet]
  | cons p t ih =>
    obtain ⟨q, w⟩ := p
    by_cases hq : (q == k) = true
    · simp [dictSet, dictGet, hq]
    · simp only [Bool.not_eq_true] at hq
      simp [dictSet, dictGet, hq, ih]

theorem dictGet_dictSet_ne {α β : Type} [BEq α] [LawfulBEq α]
    (m : List (α × β)) (k k2 : α) (v : β) (h : k ≠ k2) :
    dictGet k2 (dictSet m k v) = dictGet k2 m := by
  induction m with
  | nil =>
    have : (k == k2) = false := beq_eq_false_iff_ne.mpr h
    simp [dictSet, dictGet, this]
  | cons p t ih =>
    obtain ⟨q, w⟩ := p
    by_cases hq : (q == k) = true
    · have hqk : q = k := eq_of_beq hq
      have : (q == k2) = false := beq_eq_false_iff_ne.mpr (hqk ▸ h)
      simp [dictSet, dictGet, hq, this]
    · simp only [Bool.not_eq_true] at hq
      by_cases hq2 : (q == k2) = true
      · simp [dictSet, dictGet, hq, hq2]
      · simp only [Bool.not_eq_true] at hq2
        simp [dictSet, dictGet, hq, hq2, ih]

/-! ### Shared sample states -/

/-- A freshly built draft bound to list `"L1"` whose body carries the name
`"Test"` — the state right after `Clickup("token", "Test", "L1")`. -/
def sample : Clickup :=
  { body := [("name", .str "Test")], id := Option.none, list_id := some "L1",
    customFields := [], valid_CustomFields_ids := Option.none,
    validStatuses := Option.none, space_id := Option.none, tags := Option.none }

/-- `sample` after a successful create bound it to task `"t1"`. -/
def sampleCreated : Clickup := { sample with id := some "t1" }

/-- `sample` with an empty body (no `name` key). -/
def sampleNoName : Clickup := { sample with body := [] }

/-! ### C8 -/

/-- C8: `clear_task` resets `body` to the empty mapping and `customFields`
to the empty sequence, and leaves `id` (identity), `list_id` (listBinding),
`validStatuses` (statusCache), `valid_CustomFields_ids`
(customFieldIdCache), `space_id` (spaceId) and `tags` (spaceTagCache)
exactly as they were. -/
theorem C8_clear_task_frame (st : Clickup) :
    (clear_task st).body = [] ∧ (clear_task st).customFields = [] ∧
    (clear_task st).id = st.id ∧ (clear_task st).list_id = st.list_id ∧
    (clear_task st).validStatuses = st.validStatuses ∧
    (clear_task st).valid_CustomFields_ids = st.valid_CustomFields_ids ∧
    (clear_task st).space_id = st.space_id ∧ (clear_task st).tags = st.tags :=
  ⟨rfl, rfl, rfl, rfl, rfl, rfl, rfl, rfl⟩

/-! ### C2 -/

/-- C2: contrary to the claim, `get_customFieldId` never returns normally
once the definitions are fetched: `next` applied to the list comprehension
raises `TypeError` both when a field with the requested name exists
(`"x"` here) and when none does (`"y"`), and a `TypeError` is neither a
normal return nor the `ValueError` the library uses for domain errors. -/
theorem C2_get_customFieldId_raises :
    (get_customFieldId sample (.resp 200 [⟨"f1", "x"⟩]) "x").ret =
      .error .nextOnList ∧
    (get_customFieldId sample (.resp 200 [⟨"f1", "x"⟩]) "y").ret =
      .error .nextOnList ∧
    Err.nextOnList.isTypeError = true ∧ Err.nextOnList.isValueError = false :=
  ⟨rfl, rfl, rfl, rfl⟩

/-! ### C3 -/

/-- C3: contrary to the claim, any start date strictly in the past makes
`add_startDate` raise `TypeError` (from comparing a `timedelta` with the
int `1`), never `ValidationError` — here both a two-days-old date and a
date one millisecond in the past (which the claimed one-day window should
accept) with call time `now = 172800000` ms; a non-past date is written
normally. -/
theorem C3_add_startDate_raises_TypeError :
    add_startDate sample 172800000 0 false = .error .timedeltaIntCompare ∧
    add_startDate sample 172800000 172799999 false = .error .timedeltaIntCompare ∧
    Err.timedeltaIntCompare.isTypeError = true ∧
    Err.timedeltaIntCompare.isValueError = false ∧
    add_startDate sample 172800000 172800000 true =
      .ok { sample with
        body := dictSet (dictSet sample.body "start_date" (.int 172800000))
          "start_date_time" (.bool true) } :=
  ⟨rfl, rfl, rfl, rfl, rfl⟩

/-! ### C1: counterexample -/

/-- C1 is false on the code in two ways.  First, `add_task` rebinds
`self.list_id` before any precondition check, so a create that fails with
"Task already created" has still replaced the list binding `"L1"` by
`"L2"`.  Second, a 200 response whose `id` field is the empty string makes
the create fail while leaving `self.id = ""`, so a later create on the
same draft is no longer legal. -/
theorem C1_counterexample :
    ((add_task sampleCreated (some "L2") (.resp 200 (some "x"))).ret =
        .error .alreadyCreated ∧
      sampleCreated.list_id = some "L1" ∧
      (add_task sampleCreated (some "L2") (.resp 200 (some "x"))).state.list_id =
        some "L2") ∧
    ((add_task sample Option.none (.resp 200 (some ""))).ret = .error .idNotFound ∧
      sample.id = Option.none ∧
      (add_task sample Option.none (.resp 200 (some ""))).state.id = some "" ∧
      (add_task (add_task sample Option.none (.resp 200 (some ""))).state
          Option.none (.resp 200 (some "x"))).ret = .error .alreadyCreated) :=
  ⟨⟨rfl, rfl, rfl⟩, ⟨rfl, rfl, rfl, rfl⟩⟩

/-! ### C4: counterexample -/

/-- C4 is false on the code: an `int` argument to `add_parent` (and a
`str` argument to `add_linksTo`) falls through the `isinstance` guard and
is silently ignored — the call returns normally, performs no existence
check and writes nothing. -/
theorem C4_counterexample :
    (add_parent sample (.resp 200) (.int 5)).ret = .ok () ∧
    (add_parent sample (.resp 200) (.int 5)).state = sample ∧
    (add_parent sample (.resp 200) (.int 5)).calls = 0 ∧
    (add_linksTo sample (.resp 200) (.str "abc")).ret = .ok () ∧
    (add_linksTo sample (.resp 200) (.str "abc")).state = sample ∧
    (add_linksTo sample (.resp 200) (.str "abc")).calls = 0 :=
  ⟨rfl, rfl, rfl, rfl, rfl, rfl⟩

/-! ### C7: counterexample -/

/-- C7 is false on the code: with a populated status cache whose only
entry sits at order-index `1`, `get_first_status` evaluates `statuses[0]`
and raises `KeyError` — not the claimed `ValidationError` (and not even a
`ValueError`). -/
theorem C7_counterexample :
    (get_first_status { sample with validStatuses := some [(1, "open")] }
        (.resp 200 (some []))).ret = .error .statusKeyError ∧
    Err.statusKeyError.isKeyError = true ∧
    Err.statusKeyError.isValueError = false ∧
    Err.statusKeyError.isValidationError = false :=
  ⟨rfl, rfl, rfl, rfl⟩

/-! ### C1: amended theorem -/

/-- C1 (amended): when `add_task` raises, the draft body and the
custom-field sequence are untouched, and the identity is exactly what it
was before the call except in one case: a 200 response whose `id` field is
the empty string leaves the identity set to that empty string.  A 200
response with a missing `id` field fails while leaving the identity unset,
and a later create on the resulting draft succeeds.  The list binding,
however, is rebound to the `list_id` argument (when one is given) before
the precondition checks run.  `update_task` never changes any local state,
whether it raises or not. -/
theorem C1_amended_error_frame (st : Clickup) (arg : Option String)
    (net : CreateNet) (netU : UpdateNet) (e : Err)
    (h : (add_task st arg net).ret = .error e) :
    (add_task st arg net).state.body = st.body ∧
    (add_task st arg net).state.customFields = st.customFields ∧
    (add_task st arg net).state.list_id = arg.or st.list_id ∧
    ((add_task st arg net).state.id = st.id ∨
      (net = .resp 200 (some "") ∧ (add_task st arg net).state.id = some "")) ∧
    (net = .resp 200 Option.none → e = .idNotFound →
      (add_task st arg net).state.id = Option.none ∧
      ∀ x, x ≠ "" →
        (add_task (add_task st arg net).state Option.none
          (.resp 200 (some x))).ret = .ok ()) ∧
    (update_task st netU).state = st := by
  have hupd : (update_task st netU).state = st := by
    cases netU <;> simp only [update_task] <;> split_ifs <;> rfl
  refine ⟨?_, ?_, ?_, ?_, ?_, hupd⟩
  case _ =>
    cases net <;> simp only [add_task] <;> split_ifs <;> rfl
  case _ =>
    cases net <;> simp only [add_task] <;> split_ifs <;> rfl
  case _ =>
    cases net <;> simp only [add_task] <;> split_ifs <;> rfl
  case _ =>
    cases net with
    | requestFail =>
      simp only [add_task]
      split_ifs <;> exact Or.inl rfl
    | resp status idField =>
      simp only [add_task] at h ⊢
      split_ifs at h ⊢ with h1 h2 h3 h4 h5
      · exact Or.inl rfl
      · exact Or.inl rfl
      · exact Or.inl rfl
      · -- 200 response, falsy id: the state holds the response id verbatim
        have h2a : st.id = Option.none := by
          simpa [Option.not_isSome_iff_eq_none] using h2
        have h4a : status = 200 := by simpa using h4
        simp only [Bool.or_eq_true, beq_iff_eq] at h5
        rcases h5 with h5 | h5
        · exact Or.inl (by simp [h5, h2a])
        · exact Or.inr ⟨by rw [h4a, h5], by simp [h5]⟩
      · exact Or.inl rfl
  case _ =>
    rintro rfl he
    subst he
    rcases Bool.eq_false_or_eq_true ((arg.or st.list_id).isNone) with h1 | h1
    · simp [add_task, h1] at h
    · rcases Bool.eq_false_or_eq_true (st.id.isSome) with h2 | h2
      · simp [add_task, h1, h2] at h
      · rcases Bool.eq_false_or_eq_true
            (match dictGet "name" st.body with
              | some v => is_not_empty v
              | Option.none => false) with h3 | h3
        · constructor
          · simp [add_task, h1, h2, h3]
          · intro x hx
            simp [add_task, Option.none_or, h1, h2, h3, hx]
        · simp [add_task, h1, h2, h3] at h

/-- Witness for C1's amended theorem at the concrete create that fails on
a 200 response with a missing `id` field: the body is untouched, the
identity stays unset, a later create on the resulting draft succeeds, and
a failing update changes nothing. -/
theorem C1_amended_witness :
    (add_task sample Option.none (.resp 200 Option.none)).state.body =
      sample.body ∧
    (add_task sample Option.none (.resp 200 Option.none)).state.customFields =
      sample.customFields ∧
    (add_task sample Option.none (.resp 200 Option.none)).state.id =
      Option.none ∧
    (add_task (add_task sample Option.none (.resp 200 Option.none)).state
        Option.none (.resp 200 (some "t9"))).ret = .ok () ∧
    (update_task sample (.resp 500 "err")).state = sample := by
  have H := C1_amended_error_frame sample Option.none (.resp 200 Option.none)
    (.resp 500 "err") .idNotFound rfl
  exact ⟨H.1, H.2.1, (H.2.2.2.2.1 rfl rfl).1,
    (H.2.2.2.2.1 rfl rfl).2 "t9" (by decide), H.2.2.2.2.2⟩

/-! ### C5 -/

/-- C5: once `identity` is set, every further `add_task` call fails with a
lifecycle (`StateError`-class) error before the network — the identity is
never reassigned and no request is issued, whatever the body, the network
or the `list_id` argument. -/
theorem C5_no_second_create (st : Clickup) (arg : Option String)
    (net : CreateNet) (x : String) (h : st.id = some x) :
    ∃ e, (add_task st arg net).ret = .error e ∧ e.isStateError = true ∧
      (add_task st arg net).state.id = some x ∧ (add_task st arg net).calls = 0 := by
  unfold add_task
  by_cases hl : (arg.or st.list_id).isNone
  · exact ⟨.noListId, by simp [hl, h, Err.isStateError]⟩
  · have hs : ({ st with list_id := arg.or st.list_id } : Clickup).id.isSome := by
      simp [h]
    exact ⟨.alreadyCreated, by simp [hl, hs, h, Err.isStateError]⟩

/-- Witness for C5 at a concrete already-created draft. -/
theorem C5_witness :
    ∃ e, (add_task sampleCreated Option.none (.resp 200 (some "z"))).ret =
        .error e ∧ e.isStateError = true ∧
      (add_task sampleCreated Option.none (.resp 200 (some "z"))).state.id =
        some "t1" ∧
      (add_task sampleCreated Option.none (.resp 200 (some "z"))).calls = 0 :=
  C5_no_second_create sampleCreated Option.none (.resp 200 (some "z")) "t1" rfl

/-! ### C6 -/

/-- C6: when the draft body has no `name` entry, or its `name` entry fails
`is_not_empty` (e.g. a whitespace-only string), `add_task` fails with a
lifecycle (`StateError`-class) error and performs zero remote calls. -/
theorem C6_name_missing_no_network (st : Clickup) (arg : Option String)
    (net : CreateNet)
    (h : ∀ v, dictGet "name" st.body = some v → is_not_empty v = false) :
    ∃ e, (add_task st arg net).ret = .error e ∧ e.isStateError = true ∧
      (add_task st arg net).calls = 0 := by
  unfold add_task
  by_cases hl : (arg.or st.list_id).isNone
  · exact ⟨.noListId, by simp [hl, Err.isStateError]⟩
  by_cases hi : st.id.isSome
  · exact ⟨.alreadyCreated, by simp [hl, hi, Err.isStateError]⟩
  · have hn : (match dictGet "name" st.body with
        | some v => is_not_empty v
        | Option.none => false) = false := by
      cases hd : dictGet "name" st.body with
      | none => rfl
      | some v => simpa [hd] using h v hd
    exact ⟨.nameMissing, by simp [hl, hi, hn, Err.isStateError]⟩

/-- Witness for C6 at a draft whose body has no `name` key. -/
theorem C6_witness :
    ∃ e, (add_task sampleNoName Option.none (.resp 200 (some "z"))).ret =
        .error e ∧ e.isStateError = true ∧
      (add_task sampleNoName Option.none (.resp 200 (some "z"))).calls = 0 :=
  C6_name_missing_no_network sampleNoName Option.none (.resp 200 (some "z"))
    (by intro v hv; simp [sampleNoName, dictGet] at hv)

/-! ### C7: amended theorem -/

/-- C7 (amended): with a populated status cache, `get_first_status`
returns the name stored at order-index `0` when one is present, but raises
`KeyError` (not `ValidationError`) when the populated cache has no entry at
order-index `0`; when the cache is empty or absent and the fetch yields an
empty status set, it fails with the `ValidationError`-class error "Could
not obtain statuses". -/
theorem C7_amended_first_status (st : Clickup) (net : StatusesNet)
    (vs : List (Int × String)) (l : String) :
    (st.validStatuses = some vs → vs ≠ [] → ∀ s, dictGet (0 : Int) vs = some s →
      (get_first_status st net).ret = .ok s) ∧
    (st.validStatuses = some vs → vs ≠ [] → dictGet (0 : Int) vs = Option.none →
      (get_first_status st net).ret = .error .statusKeyError ∧
      Err.statusKeyError.isKeyError = true) ∧
    (st.validStatuses = Option.none → st.list_id = some l →
      (get_first_status st (.resp 200 (some []))).ret =
        .error .couldNotObtainStatuses ∧
      Err.couldNotObtainStatuses.isValidationError = true) := by
  refine ⟨?_, ?_, ?_⟩
  · intro hvs hne s h0
    have hemp : vs.isEmpty = false := by
      cases vs with
      | nil => exact absurd rfl hne
      | cons a t => rfl
    simp [get_first_status, hvs, hemp, firstFromStatuses, h0]
  · intro hvs hne h0
    have hemp : vs.isEmpty = false := by
      cases vs with
      | nil => exact absurd rfl hne
      | cons a t => rfl
    refine ⟨?_, rfl⟩
    simp [get_first_status, hvs, hemp, firstFromStatuses, h0]
  · intro hvs hl
    refine ⟨?_, rfl⟩
    have hnone : st.list_id.isNone = false := by simp [hl]
    simp [get_first_status, hvs, get_first_status_fetch, get_statuses, hnone,
      statusesLoop]

/-- Witness for C7's amended theorem: the three clauses at concrete caches
(`{0: "Open"}`, `{1: "open"}`, and an unset cache with an empty fetch). -/
theorem C7_amended_witness :
    (get_first_status { sample with validStatuses := some [(0, "Open")] }
        (.resp 200 (some []))).ret = .ok "Open" ∧
    (get_first_status { sample with validStatuses := some [(1, "open")] }
        (.resp 200 (some []))).ret = .error .statusKeyError ∧
    (get_first_status sample (.resp 200 (some []))).ret =
      .error .couldNotObtainStatuses :=
  ⟨(C7_amended_first_status { sample with validStatuses := some [(0, "Open")] }
      (.resp 200 (some [])) [(0, "Open")] "L1").1 rfl (by simp) "Open" rfl,
   ((C7_amended_first_status { sample with validStatuses := some [(1, "open")] }
      (.resp 200 (some [])) [(1, "open")] "L1").2.1 rfl (by simp) rfl).1,
   ((C7_amended_first_status sample (.resp 200 (some [])) [] "L1").2.2
      rfl rfl).1⟩

/-! ### C4: amended theorem -/

/-- C4 (amended): for a `str` argument, `add_parent` always performs the
existence check (one request); on a found probe (200) it returns normally
and writes `body["parent"]`; on a not-found answer it raises
`ValidationError`; and it propagates the check's own failure; `add_linksTo`
behaves the same for `int` arguments and `body["links_to"]`.  Arguments of
any other type — ints to `add_parent`, non-ints to `add_linksTo` — are
silently dropped: no check, no write, no error. -/
theorem C4_amended_parent_links (st : Clickup) (net : ProbeNet) (s : String)
    (n : Int) (t : PyVal) (hs : t.isStr = false) (hi : t.isInt = false) :
    ((add_parent st net (.str s)).calls = 1 ∧
      (net = .resp 200 →
        (add_parent st net (.str s)).ret = .ok () ∧
        dictGet "parent" (add_parent st net (.str s)).state.body =
          some (.str s)) ∧
      ((add_parent st net (.str s)).ret = .ok () →
        dictGet "parent" (add_parent st net (.str s)).state.body =
          some (.str s)) ∧
      (net = .requestFail →
        (add_parent st net (.str s)).ret = .error .checkTransport) ∧
      (∀ c, net = .resp c → c ≠ 200 →
        (add_parent st net (.str s)).ret = .error (.invalidTaskRef s) ∧
        (Err.invalidTaskRef s).isValidationError = true)) ∧
    ((add_linksTo st net (.int n)).calls = 1 ∧
      (net = .resp 200 →
        (add_linksTo st net (.int n)).ret = .ok () ∧
        dictGet "links_to" (add_linksTo st net (.int n)).state.body =
          some (.int n)) ∧
      ((add_linksTo st net (.int n)).ret = .ok () →
        dictGet "links_to" (add_linksTo st net (.int n)).state.body =
          some (.int n)) ∧
      (net = .requestFail →
        (add_linksTo st net (.int n)).ret = .error .checkTransport) ∧
      (∀ c, net = .resp c → c ≠ 200 →
        (add_linksTo st net (.int n)).ret =
          .error (.invalidTaskRef (toString n)) ∧
        (Err.invalidTaskRef (toString n)).isValidationError = true)) ∧
    add_parent st net t = ⟨st, .ok (), 0⟩ ∧
    add_linksTo st net t = ⟨st, .ok (), 0⟩ := by
  refine ⟨⟨?_, ?_, ?_, ?_, ?_⟩, ⟨?_, ?_, ?_, ?_, ?_⟩, ?_, ?_⟩
  · cases net with
    | requestFail => rfl
    | resp c =>
      by_cases hc : (c == 200) = true <;>
        simp [add_parent, check_task_validity, hc]
  · rintro rfl
    exact ⟨rfl, by simp [add_parent, check_task_validity, dictGet_dictSet_self]⟩
  · cases net with
    | requestFail => intro h; simp [add_parent, check_task_validity] at h
    | resp c =>
      intro h
      by_cases hc : (c == 200) = true
      · simp [add_parent, check_task_validity, hc, dictGet_dictSet_self]
      · simp [add_parent, check_task_validity, hc] at h
  · rintro rfl; rfl
  · rintro c rfl hc
    have hc2 : (c == 200) = false := by simpa using hc
    exact ⟨by simp [add_parent, check_task_validity, hc2], rfl⟩
  · cases net with
    | requestFail => rfl
    | resp c =>
      by_cases hc : (c == 200) = true <;>
        simp [add_linksTo, check_task_validity, hc]
  · rintro rfl
    exact ⟨rfl, by simp [add_linksTo, check_task_validity, dictGet_dictSet_self]⟩
  · cases net with
    | requestFail => intro h; simp [add_linksTo, check_task_validity] at h
    | resp c =>
      intro h
      by_cases hc : (c == 200) = true
      · simp [add_linksTo, check_task_validity, hc, dictGet_dictSet_self]
      · simp [add_linksTo, check_task_validity, hc] at h
  · rintro rfl; rfl
  · rintro c rfl hc
    have hc2 : (c == 200) = false := by simpa using hc
    exact ⟨by simp [add_linksTo, check_task_validity, hc2], rfl⟩
  · cases t with
    | str s2 => exact absurd hs (by simp [PyVal.isStr])
    | int n2 => rfl
    | none => rfl
    | unstringable => rfl
  · cases t with
    | str s2 => rfl
    | int n2 => exact absurd hi (by simp [PyVal.isInt])
    | none => rfl
    | unstringable => rfl

/-- Witness for C4's amended theorem: the found probe (200) really writes
`body["parent"]` / `body["links_to"]` and returns normally, the not-found
probe (404) raises the validation error, and a `None` argument is silently
dropped by both methods. -/
theorem C4_amended_witness :
    (add_parent sample (.resp 200) (.str "p1")).ret = .ok () ∧
    dictGet "parent" (add_parent sample (.resp 200) (.str "p1")).state.body =
      some (.str "p1") ∧
    (add_linksTo sample (.resp 200) (.int 9)).ret = .ok () ∧
    dictGet "links_to" (add_linksTo sample (.resp 200) (.int 9)).state.body =
      some (.int 9) ∧
    (add_parent sample (.resp 404) (.str "p1")).ret =
      .error (.invalidTaskRef "p1") ∧
    (add_linksTo sample (.resp 404) (.int 9)).ret =
      .error (.invalidTaskRef (toString (9 : Int))) ∧
    add_parent sample (.resp 200) .none = ⟨sample, .ok (), 0⟩ ∧
    add_linksTo sample (.resp 200) .none = ⟨sample, .ok (), 0⟩ := by
  have H := C4_amended_parent_links sample (.resp 200) "p1" 9 .none rfl rfl
  have H404 := C4_amended_parent_links sample (.resp 404) "p1" 9 .none rfl rfl
  exact ⟨(H.1.2.1 rfl).1, (H.1.2.1 rfl).2, (H.2.1.2.1 rfl).1, (H.2.1.2.1 rfl).2,
    (H404.1.2.2.2.2 404 rfl (by decide)).1,
    (H404.2.1.2.2.2.2 404 rfl (by decide)).1,
    H.2.2.1, H.2.2.2⟩

/-! ### C9 -/

/-- The list `body["watchers"]["add"]` of a draft (empty when the
`watchers` dict is absent). -/
def watchersAdd (st : Clickup) : List Int :=
  match dictGet "watchers" st.body with
  | some (.watchers a _) => a
  | _ => []

/-- The list `body["watchers"]["rem"]` of a draft (empty when the
`watchers` dict is absent). -/
def watchersRem (st : Clickup) : List Int :=
  match dictGet "watchers" st.body with
  | some (.watchers _ r) => r
  | _ => []

/-- The `watchers` entry of the body, when present, really is the
`{"add": …, "rem": …}` dict the two watcher methods maintain (any other
value would make the Python subscript raise `TypeError`). -/
def watchersWellTyped (st : Clickup) : Prop :=
  dictGet "watchers" st.body = Option.none ∨
  ∃ a r, dictGet "watchers" st.body = some (.watchers a r)

/-- C9: `add_watcher` and `remove_watcher` keep `body.watchers.add` and
`body.watchers.rem` duplicate-free in first-added order: repeating a call
with the same id is a no-op (the composite equals the single call), a new
id is appended at the end, a known id leaves the list unchanged, and each
method never touches the other's list. -/
theorem C9_watchers_dedup_ordered (st : Clickup) (u : Int)
    (h : watchersWellTyped st) :
    Except.bind (add_watcher st u) (fun s => add_watcher s u) =
      add_watcher st u ∧
    Except.bind (remove_watcher st u) (fun s => remove_watcher s u) =
      remove_watcher st u ∧
    (∃ st2, add_watcher st u = .ok st2 ∧
      watchersAdd st2 =
        (if u ∈ watchersAdd st then watchersAdd st else watchersAdd st ++ [u]) ∧
      watchersRem st2 = watchersRem st) ∧
    (∃ st2, remove_watcher st u = .ok st2 ∧
      watchersRem st2 =
        (if u ∈ watchersRem st then watchersRem st else watchersRem st ++ [u]) ∧
      watchersAdd st2 = watchersAdd st) := by
  rcases h with h | ⟨a, r, h⟩
  · -- no `watchers` key yet: both methods first install the empty dict
    have hadd : add_watcher st u = .ok { st with body := dictSet (dictSet st.body "watchers" (.watchers [] [])) "watchers" (.watchers [u] []) } := by
      simp [add_watcher, h, dictGet_dictSet_self]
    have hrem : remove_watcher st u = .ok { st with body := dictSet (dictSet st.body "watchers" (.watchers [] [])) "watchers" (.watchers [] [u]) } := by
      simp [remove_watcher, h, dictGet_dictSet_self]
    refine ⟨?_, ?_, ?_, ?_⟩
    · rw [hadd]
      show add_watcher _ u = _
      simp [add_watcher, dictGet_dictSet_self]
    · rw [hrem]
      show remove_watcher _ u = _
      simp [remove_watcher, dictGet_dictSet_self]
    · exact ⟨_, hadd, by simp [watchersAdd, watchersRem, h, dictGet_dictSet_self]⟩
    · exact ⟨_, hrem, by simp [watchersAdd, watchersRem, h, dictGet_dictSet_self]⟩
  · -- the dict is present with lists `a` and `r`
    by_cases hu : u ∈ a
    · have hadd : add_watcher st u = .ok st := by
        simp [add_watcher, h, hu]
      by_cases hur : u ∈ r
      · have hrem : remove_watcher st u = .ok st := by
          simp [remove_watcher, h, hur]
        refine ⟨by rw [hadd]; exact hadd, by rw [hrem]; exact hrem, ?_, ?_⟩
        · exact ⟨st, hadd, by simp [watchersAdd, watchersRem, h, hu]⟩
        · exact ⟨st, hrem, by simp [watchersAdd, watchersRem, h, hur]⟩
      · have hrem : remove_watcher st u = .ok { st with body := dictSet st.body "watchers" (.watchers a (r ++ [u])) } := by
          simp [remove_watcher, h, hur]
        refine ⟨by rw [hadd]; exact hadd, ?_, ?_, ?_⟩
        · rw [hrem]
          show remove_watcher _ u = _
          simp [remove_watcher, dictGet_dictSet_self]
        · exact ⟨st, hadd, by simp [watchersAdd, watchersRem, h, hu]⟩
        · exact ⟨_, hrem, by simp [watchersAdd, watchersRem, h, hur, dictGet_dictSet_self]⟩
    · have hadd : add_watcher st u = .ok { st with body := dictSet st.body "watchers" (.watchers (a ++ [u]) r) } := by
        simp [add_watcher, h, hu]
      by_cases hur : u ∈ r
      · have hrem : remove_watcher st u = .ok st := by
          simp [remove_watcher, h, hur]
        refine ⟨?_, by rw [hrem]; exact hrem, ?_, ?_⟩
        · rw [hadd]
          show add_watcher _ u = _
          simp [add_watcher, dictGet_dictSet_self]
        · exact ⟨_, hadd, by simp [watchersAdd, watchersRem, h, hu, dictGet_dictSet_self]⟩
        · exact ⟨st, hrem, by simp [watchersAdd, watchersRem, h, hur]⟩
      · have hrem : remove_watcher st u = .ok { st with body := dictSet st.body "watchers" (.watchers a (r ++ [u])) } := by
          simp [remove_watcher, h, hur]
        refine ⟨?_, ?_, ?_, ?_⟩
        · rw [hadd]
          show add_watcher _ u = _
          simp [add_watcher, dictGet_dictSet_self]
        · rw [hrem]
          show remove_watcher _ u = _
          simp [remove_watcher, dictGet_dictSet_self]
        · exact ⟨_, hadd, by simp [watchersAdd, watchersRem, h, hu, dictGet_dictSet_self]⟩
        · exact ⟨_, hrem, by simp [watchersAdd, watchersRem, h, hur, dictGet_dictSet_self]⟩

/-- Witness for C9 at a draft with no `watchers` key and user id `7`. -/
theorem C9_witness :
    Except.bind (add_watcher sample 7) (fun s => add_watcher s 7) =
      add_watcher sample 7 ∧
    Except.bind (remove_watcher sample 7) (fun s => remove_watcher s 7) =
      remove_watcher sample 7 ∧
    (∃ st2, add_watcher sample 7 = .ok st2 ∧
      watchersAdd st2 =
        (if 7 ∈ watchersAdd sample then watchersAdd sample
         else watchersAdd sample ++ [7]) ∧
      watchersRem st2 = watchersRem sample) ∧
    (∃ st2, remove_watcher sample 7 = .ok st2 ∧
      watchersRem st2 =
        (if 7 ∈ watchersRem sample then watchersRem sample
         else watchersRem sample ++ [7]) ∧
      watchersAdd st2 = watchersAdd sample) :=
  C9_watchers_dedup_ordered sample 7 (Or.inl rfl)

/-! ### C10 -/

/-- C10: a non-`str` argument whose `str()` conversion succeeds (such as
`None`, the constructor's default) makes `add_name` return normally with
the body untouched — in particular a draft constructed without an explicit
string name has no `name` key — and `body["name"]` is only ever written by
a `str` argument. -/
theorem C10_add_name_non_string (st : Clickup) (x : PyVal) (l : Option String)
    (hx : x.isStr = false) (hs : pyStr x ≠ Option.none) :
    add_name st x = .ok st ∧
    (∀ st2, Clickup.init x l = .ok st2 → dictGet "name" st2.body = Option.none) ∧
    (∀ y st2, add_name st y = .ok st2 → st2.body ≠ st.body → ∃ s, y = .str s) := by
  have hid : add_name st x = .ok st := by
    cases x with
    | str s => simp [PyVal.isStr] at hx
    | int n => simp [add_name, pyStr]
    | none => simp [add_name, pyStr]
    | unstringable => simp [pyStr] at hs
  refine ⟨hid, ?_, ?_⟩
  · intro st2 hinit
    cases x with
    | str s => simp [PyVal.isStr] at hx
    | int n =>
      simp only [Clickup.init, add_name, pyStr, Except.ok.injEq] at hinit
      subst hinit; rfl
    | none =>
      simp only [Clickup.init, add_name, pyStr, Except.ok.injEq] at hinit
      subst hinit; rfl
    | unstringable => simp [pyStr] at hs
  · intro y st2 hy hbody
    cases y with
    | str s => exact ⟨s, rfl⟩
    | int n =>
      simp only [add_name, pyStr, Except.ok.injEq] at hy
      exact absurd (congrArg Clickup.body hy.symm) hbody
    | none =>
      simp only [add_name, pyStr, Except.ok.injEq] at hy
      exact absurd (congrArg Clickup.body hy.symm) hbody
    | unstringable => simp [add_name, pyStr] at hy

/-- Witness for C10 at the constructor's default `name=None`. -/
theorem C10_witness :
    add_name sample PyVal.none = .ok sample ∧
    (∀ st2, Clickup.init PyVal.none (some "L1") = .ok st2 →
      dictGet "name" st2.body = Option.none) ∧
    (∀ y st2, add_name sample y = .ok st2 → st2.body ≠ sample.body →
      ∃ s, y = .str s) :=
  C10_add_name_non_string sample PyVal.none (some "L1") rfl (by simp [pyStr])

end ClickupLib
